import Mathlib

/-!
# Verification of the lunasdb backup orchestration engine

Shallow embedding of the core of `lunasdb` (a multi-destination database
backup tool) and proofs about it:

* `src/storage/local.js` — `saveToLocal` / `rotateLocalBackups`
* `src/storage/s3.js` — `saveToS3` / `rotateS3Backups`
* `src/index.js` — `generateBackupFilename`, `backupDatabase`, `main`'s
  summary/exit-code computation
* `src/config.js` — per-database loading (`enabled` normalization,
  validation, defaulting)

External effects (the dump subprocess, filesystem and S3 primitives) are
modelled as explicit inputs: each effectful call's outcome is a parameter,
and fallible operations return `Except String _` mirroring thrown `Error`s
carrying their `message`.
-/

namespace Lunasdb

/-- One artifact at a storage destination: its file name (local) or object
key (S3), and its modification time (`mtime` / `LastModified`) in epoch
milliseconds. -/
structure BackupFile where
  name : String
  mtime : Int
  deriving Repr, DecidableEq

/-- JavaScript's `String#endsWith`, as a suffix test on the character
lists. -/
def strEndsWith (s t : String) : Bool :=
  t.data.isSuffixOf s.data

/-- ASCII lowercasing of one character (`String#toLowerCase` on the ASCII
engine-type strings this code compares). -/
def lowerChar (c : Char) : Char :=
  if 'A' ≤ c ∧ c ≤ 'Z' then Char.ofNat (c.toNat + 32) else c

/-- `String#toLowerCase` on ASCII strings. -/
def strToLower (s : String) : String :=
  String.mk (s.data.map lowerChar)

/-- The suffix filter used by both rotation routines:
`file.endsWith('.sql.gz') || file.endsWith('.dump')`. -/
def isBackupFile (name : String) : Bool :=
  strEndsWith name ".sql.gz" || strEndsWith name ".dump"

/-- The comparator `(a, b) => b.mtime - a.mtime` sorts newest first; as a
relation, `a` precedes `b` when `b.mtime ≤ a.mtime`. -/
def newerEq (a b : BackupFile) : Prop := b.mtime ≤ a.mtime

instance : DecidableRel newerEq := fun a b => inferInstanceAs (Decidable (b.mtime ≤ a.mtime))

instance : IsTotal BackupFile newerEq := ⟨fun a b => le_total b.mtime a.mtime⟩

instance : IsTrans BackupFile newerEq := ⟨fun _ _ _ h h' => le_trans h' h⟩

/-- `files.sort((a, b) => b.mtime - a.mtime)` — JavaScript's `Array#sort`
is stable, so it is modelled by a stable sort under `newerEq`. -/
def sortNewestFirst (files : List BackupFile) : List BackupFile :=
  files.insertionSort newerEq

/-- The candidate list both rotation routines build: entries whose name
matches the backup suffixes, sorted newest first. -/
def rotationOrder (files : List BackupFile) : List BackupFile :=
  sortNewestFirst (files.filter (fun f => isBackupFile f.name))

/-- `filesToDelete = files.slice(keep)` after the newest-first sort: the
entries beyond the `keep` limit. (When the count is ≤ `keep` the source
skips the deletion loop; `drop` is then `[]`, which agrees.) -/
def filesToDelete (files : List BackupFile) (keep : Nat) : List BackupFile :=
  (rotationOrder files).drop keep

/-- The artifacts surviving one rotation pass: the first `keep` entries of
the newest-first order. (Directory enumeration order is unspecified, so the
post-rotation destination is represented by this list.) -/
def survivors (files : List BackupFile) (keep : Nat) : List BackupFile :=
  (rotationOrder files).take keep

/-- Run the per-file delete call (`fs.unlinkSync` / `DeleteObjectCommand`)
over the deletion list; `deleteErr` gives the error message raised on a
given name, if any. The first failure aborts the loop with that error. -/
def deleteAll (deleteErr : String → Option String) : List BackupFile → Except String Unit
  | [] => .ok ()
  | f :: rest =>
    match deleteErr f.name with
    | some msg => .error msg
    | none => deleteAll deleteErr rest

/-- `rotateLocalBackups(directory, keep)`: list the directory, keep the
`keep` newest matching files, delete the rest. Its `catch` block logs the
error and rethrows (`throw error`), so any failure propagates to the
caller. `files` is the directory listing (regular files) at call time. -/
def rotateLocalBackups (files : List BackupFile) (keep : Nat)
    (deleteErr : String → Option String) : Except String Unit :=
  deleteAll deleteErr (filesToDelete files keep)

/-- `rotateS3Backups(s3Client, bucket, prefix, keep)`: the same selection
over the listed objects (`Key` / `LastModified`); its `catch` block also
logs and rethrows. An empty listing returns early, which coincides with
deleting nothing. `objects` is the `ListObjectsV2` result. -/
def rotateS3Backups (objects : List BackupFile) (keep : Nat)
    (deleteErr : String → Option String) : Except String Unit :=
  deleteAll deleteErr (filesToDelete objects keep)

/-- `saveToLocal(backupFilePath, config)`: copy the staged artifact into the
destination directory (`copyErr` is the outcome of `copyFileSync`; `none` is
success), then rotate — a rotation error propagates and the whole store
throws. On success returns the destination path. `dirFiles` is the
directory listing after the copy. -/
def saveToLocal (fileName storagePath : String) (copyErr : Option String)
    (dirFiles : List BackupFile) (keep : Nat)
    (deleteErr : String → Option String) : Except String String :=
  match copyErr with
  | some msg => .error msg
  | none =>
    match rotateLocalBackups dirFiles keep deleteErr with
    | .error msg => .error msg
    | .ok _ => .ok (storagePath ++ "/" ++ fileName)

/-- `saveToS3(backupFilePath, config)`: credential check, upload
(`uploadErr` is the outcome of `upload.done()`), then rotate — a rotation
error propagates out of the surrounding `try` and the store throws. On
success returns `s3://bucket/key`. `objects` is the bucket listing after
the upload. -/
def saveToS3 (fileName bucket keyPref : String)
    (accessKeyId secretAccessKey : Option String) (uploadErr : Option String)
    (objects : List BackupFile) (keep : Nat)
    (deleteErr : String → Option String) : Except String String :=
  if accessKeyId.getD "" = "" ∨ secretAccessKey.getD "" = "" then
    .error "S3 storage requires accessKeyId and secretAccessKey"
  else
    match uploadErr with
    | some msg => .error msg
    | none =>
      match rotateS3Backups objects keep deleteErr with
      | .error msg => .error msg
      | .ok _ =>
        .ok ("s3://" ++ bucket ++ "/" ++ (if keyPref = "" then fileName else keyPref ++ fileName))

/-! ## Backup filename generation (`src/index.js`, `generateBackupFilename`)

The wall clock is an explicit input: the UTC components of `new Date()`.
`Date#toISOString` renders `YYYY-MM-DDTHH:MM:SS.mmmZ` with fixed-width
zero-padded fields, which the code then post-processes with
`.replace(/[:.]/g, '-').replace('T', '_').split('Z')[0]`. -/

/-- The decimal digit character for `n % 10`. -/
def digitChar (n : Nat) : Char :=
  match n % 10 with
  | 0 => '0' | 1 => '1' | 2 => '2' | 3 => '3' | 4 => '4'
  | 5 => '5' | 6 => '6' | 7 => '7' | 8 => '8' | _ => '9'

/-- Two-digit zero-padded rendering (as used for month through second). -/
def pad2 (n : Nat) : List Char := [digitChar (n / 10), digitChar n]

/-- Three-digit zero-padded rendering (milliseconds). -/
def pad3 (n : Nat) : List Char := [digitChar (n / 100), digitChar (n / 10), digitChar n]

/-- Four-digit zero-padded rendering (year). -/
def pad4 (n : Nat) : List Char :=
  [digitChar (n / 1000), digitChar (n / 100), digitChar (n / 10), digitChar n]

/-- The character list of `new Date(...).toISOString()` for the given UTC
components: `YYYY-MM-DDTHH:MM:SS.mmmZ`. -/
def isoChars (y mo d h mi s ms : Nat) : List Char :=
  pad4 y ++ '-' :: pad2 mo ++ '-' :: pad2 d ++ 'T' :: pad2 h ++ ':' :: pad2 mi
    ++ ':' :: pad2 s ++ '.' :: pad3 ms ++ ['Z']

/-- One character under `.replace(/[:.]/g, '-')`. -/
def replaceColonDot (c : Char) : Char := if c = ':' ∨ c = '.' then '-' else c

/-- One character under `.replace('T', '_')` (the ISO string holds exactly
one `T`, so the first-occurrence replace is a map). -/
def replaceT (c : Char) : Char := if c = 'T' then '_' else c

/-- The timestamp component of the filename:
`toISOString().replace(/[:.]/g, '-').replace('T', '_').split('Z')[0]`. -/
def sanitizedTimestamp (y mo d h mi s ms : Nat) : List Char :=
  (((isoChars y mo d h mi s ms).map replaceColonDot).map replaceT).takeWhile (· != 'Z')

/-- `generateBackupFilename(dbName, dbType, storageType)` — the storage
type argument is unused; the extension depends only on the (raw,
non-lowercased) `dbType`. -/
def generateBackupFilename (dbName dbType : String) (y mo d h mi s ms : Nat) : String :=
  let timestamp := String.mk (sanitizedTimestamp y mo d h mi s ms)
  let extension := if dbType = "postgres" ∨ dbType = "postgresql" then "dump" else "sql.gz"
  dbName ++ "_" ++ timestamp ++ "." ++ extension

/-! ## Backup orchestrator (`src/index.js`, `backupDatabase`) -/

/-- One entry of the (normalized, array-shaped) `config.storage` list. -/
structure StorageConfig where
  type : String
  deriving Repr, DecidableEq

/-- The per-database slice of the configuration that `backupDatabase`
consults. -/
structure DbConfig where
  type : String
  storage : List StorageConfig
  deriving Repr, DecidableEq

/-- A successful destination outcome, as pushed onto `storages`
(`{ type, path, success: true }`). -/
structure StorageOutcomeOk where
  type : String
  path : String
  deriving Repr, DecidableEq

/-- A failed destination outcome, as pushed onto `storageErrors`
(`{ type, error: message, success: false }`). -/
structure StorageOutcomeErr where
  type : String
  error : String
  deriving Repr, DecidableEq

/-- External-effect outcomes for one `backupDatabase` invocation: the dump
producer's result (error message, or artifact byte size on success) and the
result of the `k`-th destination's store call, were it made. -/
structure BackupEnv where
  dump : Except String Nat
  store : Nat → Except String String

/-- The result object `backupDatabase` resolves with. `duration` (wall
clock) is not modelled. `size` is absent (`none`) on the catch path;
`error` is absent (`none`) on the success path. -/
structure DatabaseResult where
  name : String
  success : Bool
  storages : List StorageOutcomeOk
  storageErrors : List StorageOutcomeErr
  size : Option Nat
  error : Option String
  deriving Repr, DecidableEq

/-- Observables of one `backupDatabase` call beyond its returned result:
whether a file still exists at the staging path when it returns, and how
many storage-backend store calls (`saveToLocal` / `saveToS3`) it made. -/
structure BackupRun where
  result : DatabaseResult
  stagingFileRemains : Bool
  backendCalls : Nat
  deriving Repr, DecidableEq

/-- The body of one iteration of the destination loop: dispatch on
`storageConfig.type` — `local` and `s3` call the corresponding backend
(whose outcome the environment supplies for attempt index `k`); any other
type throws inside the loop's `try`. -/
def attemptStore (env : BackupEnv) (k : Nat) (sc : StorageConfig) : Except String String :=
  if sc.type = "local" ∨ sc.type = "s3" then env.store k
  else .error ("Unsupported storage type: " ++ sc.type)

/-- Whether a destination's type reaches a storage backend at all. -/
def isBackendType (sc : StorageConfig) : Bool :=
  sc.type = "local" || sc.type = "s3"

/-- The destination fan-out loop (`for (const storageConfig of
config.storage)`), starting at attempt index `k`: every destination is
attempted; a success is pushed onto `storages`, a caught failure onto
`storageErrors`, and the loop continues either way. -/
def runDestinations (env : BackupEnv) : Nat → List StorageConfig →
    List StorageOutcomeOk × List StorageOutcomeErr × Nat
  | _, [] => ([], [], 0)
  | k, sc :: rest =>
    let (oks, errs, calls) := runDestinations env (k + 1) rest
    let callsHere := if isBackendType sc then 1 else 0
    match attemptStore env k sc with
    | .ok p => ({ type := sc.type, path := p } :: oks, errs, callsHere + calls)
    | .error m => (oks, { type := sc.type, error := m } :: errs, callsHere + calls)

/-- The supported engine dispatch of `backupDatabase`
(`config.type.toLowerCase()` against the mysql and postgres families). -/
def supportedDbType (t : String) : Bool :=
  strToLower t = "mysql" || strToLower t = "mariadb" ||
    strToLower t = "postgres" || strToLower t = "postgresql"

/-- `backupDatabase(name, config)`. Control flow of the source:

* unsupported `config.type` → `throw` before any dump, caught at the
  function's `catch`: failed result carrying the message, no staging file
  was created;
* dump failure → caught at the `catch`: failed result with `error` set,
  empty `storages`/`storageErrors`, **no staging cleanup on this path**, so
  the partial staging file (created by the producer's write stream)
  remains;
* dump success → fan out to every destination, then delete the staging
  file; if at least one destination succeeded, resolve successfully
  (`error` absent); otherwise `throw new Error('All storage destinations
  failed (N errors)')`, caught at the `catch`, which discards the
  per-destination lists. -/
def backupDatabase (name : String) (config : DbConfig) (env : BackupEnv) : BackupRun :=
  if supportedDbType config.type then
    match env.dump with
    | .error msg =>
      { result := { name := name, success := false, storages := [], storageErrors := [],
                    size := none, error := some msg }
        stagingFileRemains := true
        backendCalls := 0 }
    | .ok size =>
      let (storages, storageErrors, calls) := runDestinations env 0 config.storage
      if storages.length > 0 then
        { result := { name := name, success := true, storages := storages,
                      storageErrors := storageErrors, size := some size, error := none }
          stagingFileRemains := false
          backendCalls := calls }
      else
        { result := { name := name, success := false, storages := [], storageErrors := [],
                      size := none,
                      error := some ("All storage destinations failed ("
                        ++ toString storageErrors.length ++ " errors)") }
          stagingFileRemains := false
          backendCalls := calls }
  else
    { result := { name := name, success := false, storages := [], storageErrors := [],
                  size := none, error := some ("Unsupported database type: " ++ config.type) }
      stagingFileRemains := false
      backendCalls := 0 }

/-! ## Run coordinator (`src/index.js`, `main`: summary and exit code) -/

/-- One configured database as `main` sees it: its name, config, the
normalized `enabled` flag, and the external-effect outcomes of its backup
were it run. -/
structure DbEntry where
  name : String
  config : DbConfig
  enabled : Bool
  env : BackupEnv

/-- The results list: `main` filters to the enabled databases
(`dbConfig.enabled !== false`) and runs `backupDatabase` on each,
sequentially, in configured order. -/
def runAll (entries : List DbEntry) : List DatabaseResult :=
  (entries.filter (·.enabled)).map (fun e => (backupDatabase e.name e.config e.env).result)

/-- `failed = results.filter(r => !r.success).length`. -/
def failedCount (entries : List DbEntry) : Nat :=
  ((runAll entries).filter (fun r => !r.success)).length

/-- `if (failed > 0) process.exit(1); else process.exit(0)`. -/
def mainExitCode (entries : List DbEntry) : Nat :=
  if failedCount entries > 0 then 1 else 0

/-! ## Configuration loading (`src/config.js`, `loadConfig` per-database loop)

YAML scalars are modelled by `JsValue`; string-valued fields that the
validator probes with JavaScript truthiness (`!config[field]`) are
`Option String`, where `none` (absent) and `some ""` are the falsy cases. -/

/-- A JavaScript value as it can appear in the `enabled` field. -/
inductive JsValue
  | undef
  | nullv
  | bool (b : Bool)
  | str (s : String)
  | num (n : Int)
  deriving Repr, DecidableEq

/-- `Boolean(x)` coercion on the modelled values. -/
def jsBoolean : JsValue → Bool
  | .undef => false
  | .nullv => false
  | .bool b => b
  | .str s => s != ""
  | .num n => n != 0

/-- The `enabled` normalization: `undefined`/`null` default to `true`,
anything else goes through `Boolean(...)`. -/
def normalizeEnabled : JsValue → Bool
  | .undef => true
  | .nullv => true
  | v => jsBoolean v

/-- One storage entry as written in the YAML file. -/
structure RawStorage where
  type : Option String
  path : Option String
  bucket : Option String
  keep : Option Nat
  deriving Repr, DecidableEq

/-- The `storage` key: absent, a single object, or an array. -/
inductive RawStorageField
  | absent
  | single (s : RawStorage)
  | array (l : List RawStorage)
  deriving Repr, DecidableEq

/-- One database descriptor as written in the YAML file. -/
structure RawDbConfig where
  enabled : JsValue
  database : Option String
  type : Option String
  host : Option String
  username : Option String
  port : Option Nat
  storage : RawStorageField
  deriving Repr, DecidableEq

/-- JavaScript falsiness of an optional string field (`!config[field]`). -/
def fieldMissing : Option String → Bool
  | none => true
  | some s => s == ""

/-- `validateStorageConfig(name, storageConfig, index)`. -/
def validateStorageConfig (name : String) (sc : RawStorage) : Except String Unit :=
  let t := sc.type.getD ""
  if t ≠ "local" ∧ t ≠ "s3" then
    .error ("Database \x22" ++ name ++ "\x22 has invalid storage type")
  else if t = "local" ∧ fieldMissing sc.path then
    .error ("Database \x22" ++ name ++ "\x22 with local storage must specify a path")
  else if t = "s3" ∧ fieldMissing sc.bucket then
    .error ("Database \x22" ++ name ++ "\x22 with S3 storage must specify a bucket")
  else .ok ()

/-- Validate each entry of a storage array in order, stopping at the first
error. -/
def validateStorageList (name : String) : List RawStorage → Except String Unit
  | [] => .ok ()
  | sc :: rest =>
    match validateStorageConfig name sc with
    | .error e => .error e
    | .ok _ => validateStorageList name rest

/-- `validateDatabaseConfig(name, config)`: required-field presence
(JavaScript-truthy), engine-type validity (case-insensitive), then storage
shape validation. -/
def validateDatabaseConfig (name : String) (c : RawDbConfig) : Except String Unit :=
  let missing := fieldMissing c.database || fieldMissing c.type ||
    fieldMissing c.host || fieldMissing c.username
  if missing then
    .error ("Database \x22" ++ name ++ "\x22 is missing required fields")
  else
    let t := strToLower (c.type.getD "")
    if t ≠ "mysql" ∧ t ≠ "mariadb" ∧ t ≠ "postgres" ∧ t ≠ "postgresql" then
      .error ("Database \x22" ++ name ++ "\x22 has invalid type")
    else
      match c.storage with
      | .absent => .ok ()
      | .array [] => .error ("Database \x22" ++ name ++ "\x22 has empty storage array")
      | .array l => validateStorageList name l
      | .single s => validateStorageConfig name s

/-- `keep` defaulting: `if (!storageConfig.keep) keep = 10` (both an absent
key and `0` are falsy). -/
def defaultKeep (sc : RawStorage) : RawStorage :=
  match sc.keep with
  | none => { sc with keep := some 10 }
  | some 0 => { sc with keep := some 10 }
  | some _ => sc

/-- A descriptor after the per-database loop body: `enabled` normalized to
a boolean; for enabled databases, the port defaulted and the storage field
normalized to an array with `keep` defaults applied. Disabled databases
are left untouched apart from `enabled`. -/
structure LoadedDb where
  enabled : Bool
  database : Option String
  type : Option String
  host : Option String
  username : Option String
  port : Option Nat
  storage : RawStorageField
  deriving Repr, DecidableEq

/-- The storage normalization for an enabled database: absent becomes the
default local destination, a single object becomes a one-element array, and
`keep` defaults are applied to every entry. -/
def normalizeStorage : RawStorageField → List RawStorage
  | .absent => [{ type := some "local", path := some "/backups", bucket := none, keep := some 10 }]
  | .single s => [defaultKeep s]
  | .array l => l.map defaultKeep

/-- The port default: 5432 when the raw `type` is exactly `postgres` or
`postgresql` (no lowercasing here), else 3306. -/
def defaultPort (c : RawDbConfig) : Nat :=
  match c.port with
  | some p => p
  | none => if c.type = some "postgres" ∨ c.type = some "postgresql" then 5432 else 3306

/-- The body of `loadConfig`'s per-database loop for one descriptor:
normalize `enabled`; a disabled descriptor skips validation and defaulting
entirely (`continue`) and is returned as-is; an enabled descriptor is
validated (errors abort the whole load) and then defaulted. -/
def loadDbEntry (name : String) (c : RawDbConfig) : Except String LoadedDb :=
  let enabled := normalizeEnabled c.enabled
  if enabled = false then
    .ok { enabled := false, database := c.database, type := c.type, host := c.host,
          username := c.username, port := c.port, storage := c.storage }
  else
    match validateDatabaseConfig name c with
    | .error e => .error e
    | .ok _ =>
      .ok { enabled := true, database := c.database, type := c.type, host := c.host,
            username := c.username, port := some (defaultPort c),
            storage := .array (normalizeStorage c.storage) }

/-! ## Auxiliary observables used by the theorems -/

/-- The in-order list of destination attempts the fan-out loop makes from
attempt index `k`: each configured destination paired with the outcome of
its store attempt. -/
def attemptsFrom (env : BackupEnv) : Nat → List StorageConfig →
    List (StorageConfig × Except String String)
  | _, [] => []
  | k, sc :: rest => (sc, attemptStore env k sc) :: attemptsFrom env (k + 1) rest

/-- The successful-outcome projection of one attempt. -/
def okOutcome (p : StorageConfig × Except String String) : Option StorageOutcomeOk :=
  match p.2 with
  | .ok path => some { type := p.1.type, path := path }
  | .error _ => none

/-- The failed-outcome projection of one attempt. -/
def errOutcome (p : StorageConfig × Except String String) : Option StorageOutcomeErr :=
  match p.2 with
  | .ok _ => none
  | .error m => some { type := p.1.type, error := m }

/-- Whether the dump producer failed in the given environment. -/
def dumpFailed (env : BackupEnv) : Bool :=
  match env.dump with
  | .error _ => true
  | .ok _ => false

/-! ## Helper lemmas -/

/-- Sanitization fixes digit characters. -/
theorem sanitize_digitChar (n : Nat) :
    replaceT (replaceColonDot (digitChar n)) = digitChar n := by
  unfold digitChar
  rcases h : n % 10 with _ | _ | _ | _ | _ | _ | _ | _ | _ | m <;> rfl

/-- Digit characters are never the terminator `Z`. -/
theorem digitChar_ne_Z (n : Nat) : (digitChar n != 'Z') = true := by
  unfold digitChar
  rcases h : n % 10 with _ | _ | _ | _ | _ | _ | _ | _ | _ | m <;> rfl

/-- Simp form of `digitChar_ne_Z`. -/
theorem Z_eq_digitChar_iff (m : Nat) : (('Z' : Char) = digitChar m) ↔ False := by
  constructor
  · intro h
    have hz := digitChar_ne_Z m
    rw [← h] at hz
    simp at hz
  · exact False.elim

/-- The characters `Z` and `-` differ. -/
theorem Z_eq_dash_iff : (('Z' : Char) = '-') ↔ False := by
  simp

/-- The characters `Z` and `_` differ. -/
theorem Z_eq_uscore_iff : (('Z' : Char) = '_') ↔ False := by
  simp

/-- Splitting at a final `Z` keeps everything before it. -/
theorem takeWhile_append_Z (l : List Char) (h : ∀ c ∈ l, (c != 'Z') = true) :
    (l ++ ['Z']).takeWhile (· != 'Z') = l := by
  induction l with
  | nil => simp [List.takeWhile]
  | cons a l ih =>
    have ha := h a (List.mem_cons_self a l)
    simp only [List.cons_append, List.takeWhile_cons, ha, if_true]
    rw [ih (fun c hc => h c (List.mem_cons_of_mem a hc))]

/-- Closed form of the sanitized timestamp: the ISO instant with `:` and
`.` turned into `-`, `T` into `_`, and the final `Z` removed — the
millisecond field survives. -/
theorem sanitizedTimestamp_eq (y mo d h mi s ms : Nat) :
    sanitizedTimestamp y mo d h mi s ms =
      pad4 y ++ '-' :: pad2 mo ++ '-' :: pad2 d ++ '_' :: pad2 h ++ '-' :: pad2 mi
        ++ '-' :: pad2 s ++ '-' :: pad3 ms := by
  unfold sanitizedTimestamp
  rw [List.map_map]
  have hmap : (isoChars y mo d h mi s ms).map (replaceT ∘ replaceColonDot) =
      (pad4 y ++ '-' :: pad2 mo ++ '-' :: pad2 d ++ '_' :: pad2 h ++ '-' :: pad2 mi
        ++ '-' :: pad2 s ++ '-' :: pad3 ms) ++ ['Z'] := by
    simp [isoChars, pad4, pad3, pad2, Function.comp, sanitize_digitChar]
    refine ⟨?_, ?_, ?_, ?_, ?_⟩ <;> rfl
  rw [hmap]
  apply takeWhile_append_Z
  intro c hc
  by_contra hne
  have hcz : c = 'Z' := by
    by_contra hcc
    exact hne (by simpa [bne_iff_ne] using hcc)
  subst hcz
  simp [pad4, pad3, pad2, Z_eq_digitChar_iff, Z_eq_dash_iff, Z_eq_uscore_iff] at hc

/-- A list of matching artifacts that is already sorted newest-first is
fixed by the rotation ordering. -/
theorem rotationOrder_eq_self (l : List BackupFile)
    (hmem : ∀ f ∈ l, isBackupFile f.name = true)
    (hsort : List.Sorted newerEq l) : rotationOrder l = l := by
  unfold rotationOrder sortNewestFirst
  rw [List.filter_eq_self.mpr hmem]
  exact hsort.insertionSort_eq

/-! ## Claim C1 — rotation failures and the store outcome -/

/-- Claim C1, counterexample: an artifact is persisted to the first local
destination (the copy outcome is `none`, i.e. success), the rotation step
then fails on an undeletable old file — and the Destination Outcome for
that destination lands in the failed list, not the successful one, because
both rotation routines rethrow. (A second destination succeeds, so the
discarding all-failed path is not taken.) -/
theorem rotation_failure_fails_store_cex :
    saveToLocal "d.dump" "/backups" none [⟨"a.dump", 1⟩, ⟨"c.dump", 3⟩, ⟨"b.dump", 2⟩] 2
        (fun n => if n = "a.dump" then some "EACCES: permission denied" else none) =
      .error "EACCES: permission denied" ∧
    (backupDatabase "db" ⟨"mysql", [⟨"local"⟩, ⟨"local"⟩]⟩
        ⟨.ok 100, fun k => if k = 0 then
          saveToLocal "d.dump" "/backups" none [⟨"a.dump", 1⟩, ⟨"c.dump", 3⟩, ⟨"b.dump", 2⟩] 2
            (fun n => if n = "a.dump" then some "EACCES: permission denied" else none)
          else .ok "/mnt/backups/d.dump"⟩).result.storages =
      [⟨"local", "/mnt/backups/d.dump"⟩] ∧
    (backupDatabase "db" ⟨"mysql", [⟨"local"⟩, ⟨"local"⟩]⟩
        ⟨.ok 100, fun k => if k = 0 then
          saveToLocal "d.dump" "/backups" none [⟨"a.dump", 1⟩, ⟨"c.dump", 3⟩, ⟨"b.dump", 2⟩] 2
            (fun n => if n = "a.dump" then some "EACCES: permission denied" else none)
          else .ok "/mnt/backups/d.dump"⟩).result.storageErrors =
      [⟨"local", "EACCES: permission denied"⟩] := by
  refine ⟨by rfl, by decide, by decide⟩

/-- Claim C1 (corrected): a failure of the rotation step propagates out of
the store operation — both `rotateLocalBackups` and `rotateS3Backups` log
and rethrow, so the triggering store throws with the rotation error and
the destination is recorded as failed, even though the artifact itself was
persisted (copy/upload succeeded). -/
theorem rotation_error_propagates_to_store (fileName storagePath bucket kp : String)
    (ak sk : Option String) (dir objs : List BackupFile) (keep : Nat)
    (dErr : String → Option String) (msg : String) :
    (rotateLocalBackups dir keep dErr = .error msg →
      saveToLocal fileName storagePath none dir keep dErr = .error msg) ∧
    (ak.getD "" ≠ "" → sk.getD "" ≠ "" → rotateS3Backups objs keep dErr = .error msg →
      saveToS3 fileName bucket kp ak sk none objs keep dErr = .error msg) := by
  constructor
  · intro h
    unfold saveToLocal
    rw [h]
  · intro hak hsk h
    unfold saveToS3
    rw [if_neg (by simp [hak, hsk]), h]

/-- Witness for `rotation_error_propagates_to_store` at a concrete
directory, bucket listing and failing delete call. -/
theorem rotation_error_propagates_to_store_witness :
    saveToLocal "d.dump" "/backups" none [⟨"a.dump", 1⟩, ⟨"c.dump", 3⟩, ⟨"b.dump", 2⟩] 2
        (fun n => if n = "a.dump" then some "boom" else none) = .error "boom" ∧
    saveToS3 "d.dump" "bkt" "" (some "id") (some "key") none
        [⟨"a.dump", 1⟩, ⟨"c.dump", 3⟩, ⟨"b.dump", 2⟩] 2
        (fun n => if n = "a.dump" then some "boom" else none) = .error "boom" := by
  constructor
  · exact (rotation_error_propagates_to_store "d.dump" "/backups" "bkt" "" (some "id")
      (some "key") [⟨"a.dump", 1⟩, ⟨"c.dump", 3⟩, ⟨"b.dump", 2⟩] [] 2
      (fun n => if n = "a.dump" then some "boom" else none) "boom").1 (by rfl)
  · exact (rotation_error_propagates_to_store "d.dump" "/backups" "bkt" "" (some "id")
      (some "key") [] [⟨"a.dump", 1⟩, ⟨"c.dump", 3⟩, ⟨"b.dump", 2⟩] 2
      (fun n => if n = "a.dump" then some "boom" else none) "boom").2
      (by decide) (by decide) (by rfl)

/-! ## Claim C2 — staging file cleanup -/

/-- Claim C2, counterexample: when the dump producer fails, `backupDatabase`
returns through its catch block, which performs no staging cleanup — the
partial staging file written by the producer remains on disk, contradicting
the claim that the staging artifact is deleted before return regardless of
outcome. -/
theorem staging_file_left_on_dump_failure_cex :
    (backupDatabase "db" ⟨"mysql", [⟨"local"⟩]⟩
      ⟨.error "mysqldump exited with code 2", fun _ => .ok "/backups/x"⟩).stagingFileRemains
      = true := by
  decide

/-- Claim C2 (corrected): the staging file is deleted before return exactly
on the paths that reach the post-fan-out cleanup — when the engine type is
supported and the dump succeeds, it is always deleted (whatever the
destinations did, including all of them failing); when the dump fails, the
catch path performs no cleanup and the partial staging file remains. -/
theorem stagingFileRemains_characterization (name : String) (config : DbConfig)
    (env : BackupEnv) :
    (backupDatabase name config env).stagingFileRemains
      = (supportedDbType config.type && dumpFailed env) := by
  unfold backupDatabase dumpFailed
  split
  · rename_i hs
    cases henv : env.dump with
    | error msg => simp [hs]
    | ok size =>
      simp only
      split
      · simp [hs]
      · simp [hs]
  · rename_i hs
    simp only [Bool.not_eq_true] at hs
    simp [hs]

/-! ## Claim C3 — when the top-level error field is set -/

/-- Claim C3, counterexample: the dump succeeds and one destination is
attempted (one backend store call is made), yet the returned result carries
a top-level `error` — the all-destinations-failed throw sets it and the
catch path discards the per-destination failure list, so the failure does
not appear in `storageErrors`. -/
theorem error_set_with_destinations_attempted_cex :
    (backupDatabase "db" ⟨"mysql", [⟨"local"⟩]⟩
      ⟨.ok 100, fun _ => .error "disk full"⟩).backendCalls = 1 ∧
    (backupDatabase "db" ⟨"mysql", [⟨"local"⟩]⟩
      ⟨.ok 100, fun _ => .error "disk full"⟩).result.error
      = some "All storage destinations failed (1 errors)" ∧
    (backupDatabase "db" ⟨"mysql", [⟨"local"⟩]⟩
      ⟨.ok 100, fun _ => .error "disk full"⟩).result.storageErrors = [] := by
  refine ⟨by decide, by decide, by decide⟩

/-- Claim C3 (corrected): the top-level `error` is absent exactly when the
database backup overall succeeded (at least one destination store
succeeded); it is set on dump failure, on an unsupported engine type, and
also when every attempted destination failed — in that last case the
per-destination failures are discarded rather than reported in
`storageErrors`. -/
theorem error_absent_iff_success (name : String) (config : DbConfig) (env : BackupEnv) :
    (backupDatabase name config env).result.error = none ↔
      (backupDatabase name config env).result.success = true := by
  unfold backupDatabase
  split
  · cases henv : env.dump with
    | error msg => simp
    | ok size =>
      simp only
      split
      · simp
      · simp
  · simp

/-! ## Claim C5 — overall success iff a successful destination exists -/

/-- Claim C5 (confirmed): for every result `backupDatabase` returns,
`success` is `true` exactly when the list of successful Destination
Outcomes is non-empty — on the success path `success` is literally this
test, and every catch-path result has `success = false` with an empty
`storages` list. -/
theorem overallSuccess_iff_successful_destinations (name : String) (config : DbConfig)
    (env : BackupEnv) :
    (backupDatabase name config env).result.success = true ↔
      0 < (backupDatabase name config env).result.storages.length := by
  unfold backupDatabase
  split
  · cases henv : env.dump with
    | error msg => simp
    | ok size =>
      simp only
      split
      · rename_i h
        simpa using h
      · simp
  · simp

/-! ## Claim C4 — the generated backup filename -/

/-- Claim C4, counterexample: at 2026-10-12 14:23:45.123 UTC the generated
name keeps the millisecond field — `db_2026-10-12_14-23-45-123.sql.gz`,
not the claimed `db_2026-10-12_14-23-45.sql.gz` (timestamp to the second):
`toISOString` renders milliseconds and the sanitizer only remaps `:`, `.`,
`T` and drops the final `Z`. -/
theorem filename_includes_milliseconds_cex :
    generateBackupFilename "db" "mysql" 2026 10 12 14 23 45 123 =
        "db_2026-10-12_14-23-45-123.sql.gz" ∧
    "db_2026-10-12_14-23-45-123.sql.gz" ≠ "db_2026-10-12_14-23-45.sql.gz" := by
  exact ⟨by decide, by decide⟩

/-- Claim C4 (corrected): for every name, engine type and invocation time
the filename is `{name}_{YYYY-MM-DD}_{HH-MM-SS-mmm}.{ext}` — a UTC
timestamp to the millisecond, not to the second — where `ext` is `dump`
when the configured type is exactly `postgres`/`postgresql` and `sql.gz`
otherwise, independent of destination kind (the storage-type argument is
unused). -/
theorem generateBackupFilename_closed_form (dbName dbType : String)
    (y mo d h mi s ms : Nat) :
    generateBackupFilename dbName dbType y mo d h mi s ms =
      dbName ++ "_" ++ String.mk (pad4 y ++ '-' :: pad2 mo ++ '-' :: pad2 d ++ '_' :: pad2 h
          ++ '-' :: pad2 mi ++ '-' :: pad2 s ++ '-' :: pad3 ms) ++ "."
        ++ (if dbType = "postgres" ∨ dbType = "postgresql" then "dump" else "sql.gz") := by
  unfold generateBackupFilename
  rw [sanitizedTimestamp_eq]

/-! ## Claim C6 — every destination is attempted, in order -/

/-- Claim C6 (confirmed): whatever the per-destination outcomes, the
fan-out loop attempts all `N` configured destinations in configured order —
the attempt list has one entry per Destination Spec — and the successful
and failed outcome lists are exactly the in-order projections of those
attempts (so a failure at destination `k` never prevents attempting the
rest, and both lists preserve attempt order); in particular the two list
lengths always sum to `N`. -/
theorem fanout_attempts_all_destinations_in_order (env : BackupEnv) (k : Nat)
    (cfgs : List StorageConfig) :
    (attemptsFrom env k cfgs).length = cfgs.length ∧
    (runDestinations env k cfgs).1 = (attemptsFrom env k cfgs).filterMap okOutcome ∧
    (runDestinations env k cfgs).2.1 = (attemptsFrom env k cfgs).filterMap errOutcome ∧
    (runDestinations env k cfgs).1.length + (runDestinations env k cfgs).2.1.length
      = cfgs.length := by
  induction cfgs generalizing k with
  | nil => simp [runDestinations, attemptsFrom]
  | cons sc rest ih =>
    obtain ⟨ih1, ih2, ih3, ih4⟩ := ih (k + 1)
    rw [ih2, ih3] at ih4
    cases h : attemptStore env k sc with
    | ok p =>
      simp [runDestinations, attemptsFrom, h, okOutcome, errOutcome, List.filterMap_cons,
        ih1, ih2, ih3]
      omega
    | error m =>
      simp [runDestinations, attemptsFrom, h, okOutcome, errOutcome, List.filterMap_cons,
        ih1, ih2, ih3]
      omega

/-! ## Claim C7 — rotation deletes exactly the oldest beyond the limit -/

/-- Claim C7 (confirmed): at a destination holding `keep + K` matching
artifacts with pairwise distinct modification times (K > 0), one rotation
pass (the shared selection of `rotateLocalBackups` and `rotateS3Backups`)
deletes exactly `K` artifacts, keeps exactly `keep`, every deleted artifact
is strictly older than every kept one, kept and deleted together are a
permutation of the original holding — and a second pass over the survivors
deletes nothing and keeps them unchanged. -/
theorem rotation_keeps_newest_and_idempotent (files : List BackupFile) (keep K : Nat)
    (hmatch : ∀ f ∈ files, isBackupFile f.name = true)
    (hdist : files.Pairwise (fun a b => a.mtime ≠ b.mtime))
    (hlen : files.length = keep + K) (hK : 0 < K) :
    (filesToDelete files keep).length = K ∧
    (survivors files keep).length = keep ∧
    (∀ d ∈ filesToDelete files keep, ∀ s ∈ survivors files keep, d.mtime < s.mtime) ∧
    ((survivors files keep ++ filesToDelete files keep).Perm files) ∧
    (filesToDelete (survivors files keep) keep = []) ∧
    (survivors (survivors files keep) keep = survivors files keep) := by
  have hfilter : files.filter (fun f => isBackupFile f.name) = files :=
    List.filter_eq_self.mpr hmatch
  have hso : rotationOrder files = files.insertionSort newerEq := by
    unfold rotationOrder sortNewestFirst
    rw [hfilter]
  have hperm : (rotationOrder files).Perm files := by
    rw [hso]; exact List.perm_insertionSort newerEq files
  have hsorted : List.Sorted newerEq (rotationOrder files) := by
    rw [hso]; exact List.sorted_insertionSort newerEq files
  have hslen : (rotationOrder files).length = keep + K := by
    rw [hperm.length_eq, hlen]
  have hd_eq : filesToDelete files keep = (rotationOrder files).drop keep := rfl
  have hs_eq : survivors files keep = (rotationOrder files).take keep := rfl
  have h1 : (filesToDelete files keep).length = K := by
    rw [hd_eq, List.length_drop, hslen]; omega
  have h2 : (survivors files keep).length = keep := by
    rw [hs_eq, List.length_take, hslen]; omega
  have hsplit : (rotationOrder files).take keep ++ (rotationOrder files).drop keep
      = rotationOrder files := List.take_append_drop keep (rotationOrder files)
  have hpw : List.Pairwise newerEq
      ((rotationOrder files).take keep ++ (rotationOrder files).drop keep) := by
    rw [hsplit]; exact hsorted
  have hrel := (List.pairwise_append.mp hpw).2.2
  have hdist' : (rotationOrder files).Pairwise (fun a b => a.mtime ≠ b.mtime) :=
    (hperm.pairwise_iff (fun hab => Ne.symm hab)).mpr hdist
  have hpw2 : List.Pairwise (fun a b => a.mtime ≠ b.mtime)
      ((rotationOrder files).take keep ++ (rotationOrder files).drop keep) := by
    rw [hsplit]; exact hdist'
  have hne := (List.pairwise_append.mp hpw2).2.2
  have htake_sorted : List.Sorted newerEq ((rotationOrder files).take keep) :=
    (List.pairwise_append.mp hpw).1
  have hmem_take : ∀ f ∈ (rotationOrder files).take keep, isBackupFile f.name = true :=
    fun f hf => hmatch f (hperm.subset (List.take_subset keep (rotationOrder files) hf))
  have hro : rotationOrder (survivors files keep) = survivors files keep :=
    rotationOrder_eq_self (survivors files keep) hmem_take htake_sorted
  refine ⟨h1, h2, ?_, ?_, ?_, ?_⟩
  · intro d hd s hs
    rw [hd_eq] at hd
    rw [hs_eq] at hs
    have hle : d.mtime ≤ s.mtime := hrel s hs d hd
    exact lt_of_le_of_ne hle (fun he => hne s hs d hd he.symm)
  · rw [hd_eq, hs_eq, hsplit]
    exact hperm
  · show (rotationOrder (survivors files keep)).drop keep = []
    rw [hro]
    have hdl := List.drop_length (survivors files keep)
    rw [h2] at hdl
    exact hdl
  · show (rotationOrder (survivors files keep)).take keep = survivors files keep
    rw [hro]
    have htl := List.take_length (survivors files keep)
    rw [h2] at htl
    exact htl

/-- Witness for `rotation_keeps_newest_and_idempotent`: three artifacts,
retention two — the single oldest is deleted, the two newest survive, and a
second pass is a no-op. -/
theorem rotation_keeps_newest_and_idempotent_witness :
    (filesToDelete [⟨"a.dump", 1⟩, ⟨"c.dump", 3⟩, ⟨"b.dump", 2⟩] 2).length = 1 ∧
    (survivors [⟨"a.dump", 1⟩, ⟨"c.dump", 3⟩, ⟨"b.dump", 2⟩] 2).length = 2 ∧
    (∀ d ∈ filesToDelete [⟨"a.dump", 1⟩, ⟨"c.dump", 3⟩, ⟨"b.dump", 2⟩] 2,
      ∀ s ∈ survivors [⟨"a.dump", 1⟩, ⟨"c.dump", 3⟩, ⟨"b.dump", 2⟩] 2, d.mtime < s.mtime) ∧
    ((survivors [⟨"a.dump", 1⟩, ⟨"c.dump", 3⟩, ⟨"b.dump", 2⟩] 2
        ++ filesToDelete [⟨"a.dump", 1⟩, ⟨"c.dump", 3⟩, ⟨"b.dump", 2⟩] 2).Perm
      [⟨"a.dump", 1⟩, ⟨"c.dump", 3⟩, ⟨"b.dump", 2⟩]) ∧
    (filesToDelete (survivors [⟨"a.dump", 1⟩, ⟨"c.dump", 3⟩, ⟨"b.dump", 2⟩] 2) 2 = []) ∧
    (survivors (survivors [⟨"a.dump", 1⟩, ⟨"c.dump", 3⟩, ⟨"b.dump", 2⟩] 2) 2
      = survivors [⟨"a.dump", 1⟩, ⟨"c.dump", 3⟩, ⟨"b.dump", 2⟩] 2) :=
  rotation_keeps_newest_and_idempotent [⟨"a.dump", 1⟩, ⟨"c.dump", 3⟩, ⟨"b.dump", 2⟩] 2 1
    (by decide) (by decide) (by decide) (by decide)

/-! ## Claim C8 — dump failure reaches no storage backend -/

/-- Claim C8 (confirmed): when the dump producer fails for a supported
engine type, zero storage-backend store calls are made, the result carries
the dump error in its top-level `error` field, `success` is false, and both
the `storages` and `storageErrors` lists are empty. -/
theorem dump_failure_no_store_calls (name : String) (config : DbConfig) (env : BackupEnv)
    (msg : String) (hsup : supportedDbType config.type = true)
    (hdump : env.dump = .error msg) :
    (backupDatabase name config env).result.error = some msg ∧
    (backupDatabase name config env).result.success = false ∧
    (backupDatabase name config env).result.storages = [] ∧
    (backupDatabase name config env).result.storageErrors = [] ∧
    (backupDatabase name config env).backendCalls = 0 := by
  unfold backupDatabase
  simp [hsup, hdump]

/-- Witness for `dump_failure_no_store_calls` at a concrete configuration
whose dump fails. -/
theorem dump_failure_no_store_calls_witness :
    (backupDatabase "db" ⟨"mysql", [⟨"local"⟩, ⟨"s3"⟩]⟩
        ⟨.error "pg_dump exited with code 1", fun _ => .ok "/x"⟩).result.error
      = some "pg_dump exited with code 1" ∧
    (backupDatabase "db" ⟨"mysql", [⟨"local"⟩, ⟨"s3"⟩]⟩
        ⟨.error "pg_dump exited with code 1", fun _ => .ok "/x"⟩).result.success = false ∧
    (backupDatabase "db" ⟨"mysql", [⟨"local"⟩, ⟨"s3"⟩]⟩
        ⟨.error "pg_dump exited with code 1", fun _ => .ok "/x"⟩).result.storages = [] ∧
    (backupDatabase "db" ⟨"mysql", [⟨"local"⟩, ⟨"s3"⟩]⟩
        ⟨.error "pg_dump exited with code 1", fun _ => .ok "/x"⟩).result.storageErrors = [] ∧
    (backupDatabase "db" ⟨"mysql", [⟨"local"⟩, ⟨"s3"⟩]⟩
        ⟨.error "pg_dump exited with code 1", fun _ => .ok "/x"⟩).backendCalls = 0 :=
  dump_failure_no_store_calls "db" ⟨"mysql", [⟨"local"⟩, ⟨"s3"⟩]⟩
    ⟨.error "pg_dump exited with code 1", fun _ => .ok "/x"⟩ "pg_dump exited with code 1"
    (by decide) (by rfl)

/-! ## Claim C9 — the process exit code -/

/-- Claim C9 (confirmed): in a run that reaches the summary, the exit code
is `1` exactly when some enabled database produced a result with `success`
false, and `0` exactly when every enabled database succeeded — disabled
databases are filtered out before any backup runs and cannot influence the
code, and since `success` only requires one successful destination,
partial multi-destination success counts as success. -/
theorem exit_code_iff_enabled_failure (entries : List DbEntry) :
    (mainExitCode entries = 1 ↔ ∃ e ∈ entries, e.enabled = true ∧
        (backupDatabase e.name e.config e.env).result.success = false) ∧
    (mainExitCode entries = 0 ↔ ∀ e ∈ entries, e.enabled = true →
        (backupDatabase e.name e.config e.env).result.success = true) := by
  have key : (failedCount entries > 0) ↔ ∃ e ∈ entries, e.enabled = true ∧
      (backupDatabase e.name e.config e.env).result.success = false := by
    unfold failedCount runAll
    rw [gt_iff_lt, List.length_pos_iff_exists_mem]
    constructor
    · rintro ⟨r, hr⟩
      rw [List.mem_filter] at hr
      obtain ⟨hrm, hrp⟩ := hr
      rw [List.mem_map] at hrm
      obtain ⟨e, he, rfl⟩ := hrm
      rw [List.mem_filter] at he
      exact ⟨e, he.1, he.2, by simpa using hrp⟩
    · rintro ⟨e, he, hen, hf⟩
      exact ⟨_, List.mem_filter.mpr ⟨List.mem_map_of_mem _ (List.mem_filter.mpr ⟨he, hen⟩),
        by simp [hf]⟩⟩
  constructor
  · constructor
    · intro h1
      by_contra hc
      rw [← key] at hc
      simp only [Nat.not_lt, Nat.le_zero] at hc
      unfold mainExitCode at h1
      simp [hc] at h1
    · intro hex
      have hp := key.mpr hex
      unfold mainExitCode
      simp [hp]
  · constructor
    · intro h0 e he hen
      by_contra hc
      have hp : failedCount entries > 0 := key.mpr ⟨e, he, hen, by simpa using hc⟩
      unfold mainExitCode at h0
      simp [hp] at h0
    · intro hall
      have hnp : ¬ failedCount entries > 0 := by
        intro hpos
        obtain ⟨e, he, hen, hf⟩ := key.mp hpos
        have := hall e he hen
        simp [this] at hf
      simp only [Nat.not_lt, Nat.le_zero] at hnp
      unfold mainExitCode
      simp [hnp]

/-! ## Claim C10 — `enabled` coercion and the disabled-descriptor shortcut -/

/-- Claim C10 (confirmed): during configuration loading a descriptor is
disabled only when `Boolean(enabled)` is false (with absent/null defaulting
to enabled), so any non-empty string — including the string "false" —
coerces to true and the database stays enabled; and a descriptor that ends
up disabled skips field validation entirely: it loads without error even
with every required field missing, returned untouched apart from the
normalized flag. -/
theorem enabled_coercion_and_disabled_skips_validation (name : String) (c : RawDbConfig) :
    (∀ s : String, s ≠ "" → normalizeEnabled (.str s) = true) ∧
    (normalizeEnabled c.enabled = false →
      loadDbEntry name c =
        .ok ⟨false, c.database, c.type, c.host, c.username, c.port, c.storage⟩) := by
  constructor
  · intro s hs
    simp [normalizeEnabled, jsBoolean, hs]
  · intro h
    unfold loadDbEntry
    simp [h]

/-- Witness for `enabled_coercion_and_disabled_skips_validation`: the string
"false" is treated as enabled, and a disabled descriptor with all required
fields missing loads without error. -/
theorem enabled_coercion_and_disabled_skips_validation_witness :
    normalizeEnabled (.str "false") = true ∧
    loadDbEntry "shadow" ⟨.bool false, none, none, none, none, none, .absent⟩ =
      .ok ⟨false, none, none, none, none, none, .absent⟩ := by
  exact ⟨(enabled_coercion_and_disabled_skips_validation "shadow"
      ⟨.bool false, none, none, none, none, none, .absent⟩).1 "false" (by decide),
    (enabled_coercion_and_disabled_skips_validation "shadow"
      ⟨.bool false, none, none, none, none, none, .absent⟩).2 (by decide)⟩

end Lunasdb
